import Mathlib

/-!
Shallow embedding of the frame-header codec of `lz4_flex` (files
`src/frame/header.rs` and `src/lib.rs`), together with theorems settling the
claims about `FrameInfo::required_size`, `FrameInfo::read` and
`BlockInfo::read`.

Modelling conventions:
* Rust byte slices (`&[u8]`) are `List Nat`; all machine integers are `Nat`
  with explicit reductions modulo `2^32` (`mask32`) or `% 256` where the Rust
  code truncates.
* `Read::read_exact` on a `&[u8]` consumes bytes from the front of the slice
  and advances it; `readExactN` returns the consumed prefix and the advanced
  remainder, or `none` when too few bytes remain (read_exact's error).
* Rust panics (out-of-bounds indexing, `.unwrap()` on `Err`, `unreachable!()`)
  are modelled by the explicit outcome `ROutcome.panicked`, distinct from both
  success and any returned `Error`.
* The hash used for the header checksum is `twox_hash::XxHash32`, i.e. the
  standard XXH32 algorithm; it is embedded in full below and checked against
  the algorithm's published test vectors.
-/

namespace Lz4Flex

/-! ### Constants from `mod flags` in src/frame/header.rs -/

def VERSION_MASK : Nat := 0b11000000

def SUPPORTED_VERSION : Nat := 0b11000000

def BLOCK_SIZE_MASK : Nat := 0b01110000

def BLOCK_SIZE_MASK_RSHIFT : Nat := 4

def INDEPENDENT_BLOCKS : Nat := 0b00100000

def BLOCK_CHECKSUMS : Nat := 0b00010000

def CONTENT_SIZE : Nat := 0b00001000

def CONTENT_CHECKSUM : Nat := 0b00000100

def DICTIONARY_ID : Nat := 0b00000001

def UNCOMPRESSED_SIZE : Nat := 0xF0000000

def MAGIC_NUMBER : Nat := 0x184D2204

def SKIPPABLE_MAGIC_LO : Nat := 0x184D2A50

def SKIPPABLE_MAGIC_HI : Nat := 0x184D2A5F

/-! ### Byte-slice primitives -/

/-- `u32::from_le_bytes` / `u64::from_le_bytes`: little-endian value of a byte
list (first byte is least significant). -/
def fromLeBytes (bs : List Nat) : Nat :=
  bs.foldr (fun b acc => acc * 256 + b) 0

/-- Little-endian encoding of `v` on `n` bytes (`to_le_bytes`). -/
def toLeBytes : Nat → Nat → List Nat
  | 0, _ => []
  | n + 1, v => v % 256 :: toLeBytes n (v / 256)

/-- `input.read_exact(&mut buffer)` for a buffer of `n` bytes on a `&[u8]`:
on success yields the `n` consumed bytes and the advanced slice; `none` is
read_exact's `Err` (too few bytes). -/
def readExactN (n : Nat) (input : List Nat) : Option (List Nat × List Nat) :=
  if n ≤ input.length then some (input.take n, input.drop n) else none

/-! ### XXH32 (the hash behind `twox_hash::XxHash32`) -/

def mask32 (n : Nat) : Nat := n % 4294967296

def PRIME32_1 : Nat := 2654435761

def PRIME32_2 : Nat := 2246822519

def PRIME32_3 : Nat := 3266489917

def PRIME32_4 : Nat := 668265263

def PRIME32_5 : Nat := 374761393

/-- 32-bit rotate left (argument assumed `< 2^32`, `0 < r < 32`). -/
def rotl32 (x r : Nat) : Nat := mask32 ((x <<< r) ||| (x >>> (32 - r)))

/-- One XXH32 accumulator round: `acc = rotl(acc + lane * PRIME2, 13) * PRIME1`. -/
def xxh32Round (acc lane : Nat) : Nat :=
  mask32 (rotl32 (mask32 (acc + mask32 (lane * PRIME32_2))) 13 * PRIME32_1)

/-- The XXH32 stripe loop: consume 16-byte stripes while at least 16 bytes
remain, updating the four accumulators. -/
def xxh32Stripes :
    Nat → Nat → Nat → Nat → List Nat → Nat × Nat × Nat × Nat × List Nat
  | v1, v2, v3, v4,
      b0 :: b1 :: b2 :: b3 :: b4 :: b5 :: b6 :: b7 ::
      b8 :: b9 :: b10 :: b11 :: b12 :: b13 :: b14 :: b15 :: rest =>
    xxh32Stripes
      (xxh32Round v1 (fromLeBytes [b0, b1, b2, b3]))
      (xxh32Round v2 (fromLeBytes [b4, b5, b6, b7]))
      (xxh32Round v3 (fromLeBytes [b8, b9, b10, b11]))
      (xxh32Round v4 (fromLeBytes [b12, b13, b14, b15])) rest
  | v1, v2, v3, v4, rest => (v1, v2, v3, v4, rest)

/-- XXH32 finalization: consume remaining 4-byte lanes. -/
def xxh32Tail4 : Nat → List Nat → Nat × List Nat
  | h, b0 :: b1 :: b2 :: b3 :: rest =>
    xxh32Tail4
      (mask32 (rotl32 (mask32 (h + mask32 (fromLeBytes [b0, b1, b2, b3] * PRIME32_3))) 17
        * PRIME32_4)) rest
  | h, rest => (h, rest)

/-- XXH32 finalization: consume remaining single bytes. -/
def xxh32Tail1 (h : Nat) (bs : List Nat) : Nat :=
  bs.foldl (fun h b => mask32 (rotl32 (mask32 (h + mask32 (b * PRIME32_5))) 11 * PRIME32_1)) h

/-- XXH32 avalanche mixing of the final 32-bit hash. -/
def xxh32Avalanche (h : Nat) : Nat :=
  let h1 := mask32 ((h ^^^ (h >>> 15)) * PRIME32_2)
  let h2 := mask32 ((h1 ^^^ (h1 >>> 13)) * PRIME32_3)
  h2 ^^^ (h2 >>> 16)

/-- XXH32 of a byte list with the given seed (the hash computed by
`XxHash32::with_seed(seed)` + `write` + `finish`). -/
def xxh32 (seed : Nat) (input : List Nat) : Nat :=
  let len := input.length
  let start :=
    if 16 ≤ len then
      let (v1, v2, v3, v4, rest) :=
        xxh32Stripes (mask32 (seed + PRIME32_1 + PRIME32_2)) (mask32 (seed + PRIME32_2))
          (mask32 seed) (mask32 (seed + 4294967296 - PRIME32_1)) input
      (mask32 (rotl32 v1 1 + rotl32 v2 7 + rotl32 v3 12 + rotl32 v4 18), rest)
    else (mask32 (seed + PRIME32_5), input)
  let h0 := mask32 (start.1 + len)
  let fin := xxh32Tail4 h0 start.2
  xxh32Avalanche (xxh32Tail1 fin.1 fin.2)

/-! ### Data model -/

inductive BlockSize where
  | Max64KB
  | Max256KB
  | Max1MB
  | Max4MB
  deriving DecidableEq, Repr

inductive BlockMode where
  | Independent
  | Linked
  deriving DecidableEq, Repr

/-- The error enum of the frame module (the variants `FrameInfo::read` /
`required_size` / `BlockInfo::read` can produce). -/
inductive Error where
  | IoError
  | WrongMagicNumber
  | UnsupportedVersion (tag : Nat)
  | UnimplementedBlocksize (code : Nat)
  | SkippableFrame (len : Nat)
  | HeaderChecksumError
  deriving DecidableEq, Repr

/-- Outcome of running a Rust function that returns `Result<α, Error>` and can
also panic: `ok`, `err`, or `panicked` (index out of bounds, `.unwrap()` on an
`Err`, `unreachable!()`). -/
inductive ROutcome (α : Type) where
  | ok : α → ROutcome α
  | err : Error → ROutcome α
  | panicked : ROutcome α
  deriving DecidableEq, Repr

structure FrameInfo where
  content_size : Option Nat
  dict_id : Option Nat
  block_size : BlockSize
  block_mode : BlockMode
  block_checksums : Bool
  content_checksum : Bool
  deriving DecidableEq, Repr

/-- `Default for FrameInfo`. -/
def FrameInfo.default : FrameInfo :=
  { content_size := none
    dict_id := none
    block_size := .Max64KB
    block_mode := .Independent
    block_checksums := false
    content_checksum := false }

/-! ### FrameInfo::required_size -/

/-- `FrameInfo::required_size`. Note that `input.read_exact(&mut magic)`
advances the slice by 4 bytes, so the later `input[4]` accesses the byte at
offset 8 of the original buffer and panics when fewer than 5 bytes remain. -/
def FrameInfo.required_size (input : List Nat) : ROutcome Nat :=
  let required := 7
  if input.length < 7 then .ok required
  else
    match readExactN 4 input with
    | none => .err .IoError
    | some (magic, rest) =>
      let magic_num := fromLeBytes magic
      if magic_num ≠ MAGIC_NUMBER then .err .WrongMagicNumber
      else if SKIPPABLE_MAGIC_LO ≤ magic_num ∧ magic_num ≤ SKIPPABLE_MAGIC_HI then .ok 8
      else
        match rest.get? 4 with
        | none => .panicked
        | some flag =>
          let required := if flag &&& CONTENT_SIZE ≠ 0 then required + 8 else required
          let required := if flag &&& DICTIONARY_ID ≠ 0 then required + 4 else required
          .ok required

/-! ### FrameInfo::read -/

/-- The `match` on `bd_byte & flags::BLOCK_SIZE_MASK >> flags::BLOCK_SIZE_MASK_RSHIFT`
in `FrameInfo::read` (the `_ => unreachable!()` arm is a panic). -/
def blockSizeFromCode (code : Nat) : ROutcome BlockSize :=
  if code ≤ 3 then .err (.UnimplementedBlocksize code)
  else if code = 4 then .ok .Max64KB
  else if code = 5 then .ok .Max256KB
  else if code = 6 then .ok .Max1MB
  else if code = 7 then .ok .Max4MB
  else .panicked

/-- The content-size step of `FrameInfo::read`: when the flag bit is set the
source reads 8 bytes with `input.read_exact(&mut buffer).unwrap()`, so a short
read there panics instead of returning `IoError`. -/
def readContentSize (flag_byte : Nat) (input : List Nat) :
    ROutcome (Option Nat × List Nat) :=
  if flag_byte &&& CONTENT_SIZE ≠ 0 then
    match readExactN 8 input with
    | none => .panicked
    | some (buffer, rest) => .ok (some (fromLeBytes buffer), rest)
  else .ok (none, input)

/-- The dictionary-id step of `FrameInfo::read` (`map_err(Error::IoError)`). -/
def readDictId (flag_byte : Nat) (input : List Nat) :
    ROutcome (Option Nat × List Nat) :=
  if flag_byte &&& DICTIONARY_ID ≠ 0 then
    match readExactN 4 input with
    | none => .err .IoError
    | some (buffer, rest) => .ok (some (fromLeBytes buffer), rest)
  else .ok (none, input)

/-- `FrameInfo::read`. Faithful points to note:
* the magic number is compared against `MAGIC_NUMBER` before the skippable
  range is tested, in source order;
* the block-size code is `bd_byte & (BLOCK_SIZE_MASK >> BLOCK_SIZE_MASK_RSHIFT)`,
  because in Rust `>>` binds tighter than `&`;
* the checksum hash is taken over
  `original_input[..original_input.len() - input.len()]` computed after the
  checksum byte itself has been consumed. -/
def FrameInfo.read (original_input : List Nat) : ROutcome FrameInfo :=
  match readExactN 4 original_input with
  | none => .err .IoError
  | some (magicBuf, input1) =>
    let magic_num := fromLeBytes magicBuf
    if magic_num ≠ MAGIC_NUMBER then .err .WrongMagicNumber
    else if SKIPPABLE_MAGIC_LO ≤ magic_num ∧ magic_num ≤ SKIPPABLE_MAGIC_HI then
      match readExactN 4 input1 with
      | none => .err .IoError
      | some (lenBuf, _) => .err (.SkippableFrame (fromLeBytes lenBuf))
    else
      match readExactN 2 input1 with
      | none => .err .IoError
      | some (fbbd, input2) =>
        let flag_byte := fbbd.headD 0
        let bd_byte := (fbbd.drop 1).headD 0
        if flag_byte &&& VERSION_MASK ≠ SUPPORTED_VERSION then
          .err (.UnsupportedVersion (flag_byte &&& VERSION_MASK))
        else
          let block_mode :=
            if flag_byte &&& INDEPENDENT_BLOCKS ≠ 0 then BlockMode.Independent
            else BlockMode.Linked
          let content_checksum := decide (flag_byte &&& CONTENT_CHECKSUM ≠ 0)
          let block_checksums := decide (flag_byte &&& BLOCK_CHECKSUMS ≠ 0)
          match blockSizeFromCode (bd_byte &&& (BLOCK_SIZE_MASK >>> BLOCK_SIZE_MASK_RSHIFT)) with
          | .err e => .err e
          | .panicked => .panicked
          | .ok block_size =>
            match readContentSize flag_byte input2 with
            | .err e => .err e
            | .panicked => .panicked
            | .ok (content_size, input3) =>
              match readDictId flag_byte input3 with
              | .err e => .err e
              | .panicked => .panicked
              | .ok (dict_id, input4) =>
                match readExactN 1 input4 with
                | none => .err .IoError
                | some (csBuf, input5) =>
                  let expected_checksum := csBuf.headD 0
                  let consumed := original_input.length - input5.length
                  let header_hash := (xxh32 0 (original_input.take consumed) >>> 8) % 256
                  if header_hash ≠ expected_checksum then .err .HeaderChecksumError
                  else
                    .ok { block_mode := block_mode
                          block_size := block_size
                          content_size := content_size
                          dict_id := dict_id
                          block_checksums := block_checksums
                          content_checksum := content_checksum }

/-! ### BlockInfo -/

inductive BlockInfo where
  | Compressed (size : Nat)
  | Uncompressed (size : Nat)
  | EndMark
  deriving DecidableEq, Repr

/-- `BlockInfo::read`: 4-byte little-endian size record; `!UNCOMPRESSED_SIZE`
on `u32` is `0xFFFFFFFF ^^^ UNCOMPRESSED_SIZE`. -/
def BlockInfo.read (input : List Nat) : ROutcome BlockInfo :=
  match readExactN 4 input with
  | none => .err .IoError
  | some (sizeBuf, _) =>
    let size := fromLeBytes sizeBuf
    if size = 0 then .ok .EndMark
    else if size &&& UNCOMPRESSED_SIZE ≠ 0 then
      .ok (.Uncompressed (size &&& (0xFFFFFFFF ^^^ UNCOMPRESSED_SIZE)))
    else .ok (.Compressed size)

/-! ### Frame-header encoder (not present in the sources) -/

/-- The 2-bit... 3-bit numeric code of each `BlockSize` variant (its
discriminant in the source: `Max64KB = 4`, ..., `Max4MB = 7`). -/
def blockSizeCode : BlockSize → Nat
  | .Max64KB => 4
  | .Max256KB => 5
  | .Max1MB => 6
  | .Max4MB => 7

/-- Modelled from the spec: the frame-header encoder (the "mirror operation"
of §4.1, with the byte layout of §6), which is not among the source files
under review. Flag byte: version bits set to the supported tag, bit 5
block-independence, bit 4 block-checksums, bit 3 content-size-present, bit 2
content-checksum-present, bit 0 dictionary-id-present; block-descriptor byte
carries the size code in bits 6-4 with reserved bits zero; the optional
fields follow little-endian; the final byte is the second-least-significant
byte of the 32-bit seed-0 hash over exactly the bytes written so far. -/
def FrameInfo.write (fi : FrameInfo) : List Nat :=
  let flag_byte := SUPPORTED_VERSION
    + (if fi.block_mode = .Independent then INDEPENDENT_BLOCKS else 0)
    + (if fi.block_checksums then BLOCK_CHECKSUMS else 0)
    + (if fi.content_size.isSome then CONTENT_SIZE else 0)
    + (if fi.content_checksum then CONTENT_CHECKSUM else 0)
    + (if fi.dict_id.isSome then DICTIONARY_ID else 0)
  let bd_byte := blockSizeCode fi.block_size <<< BLOCK_SIZE_MASK_RSHIFT
  let body := toLeBytes 4 MAGIC_NUMBER ++ [flag_byte, bd_byte]
    ++ (match fi.content_size with | some n => toLeBytes 8 n | none => [])
    ++ (match fi.dict_id with | some n => toLeBytes 4 n | none => [])
  body ++ [(xxh32 0 body >>> 8) % 256]

/-! ### Regression checks of the XXH32 embedding against published vectors -/

/-- XXH32 of the empty input at seed 0 is 0x02CC5D05 (published test vector). -/
theorem xxh32_vector_empty : xxh32 0 [] = 0x02CC5D05 := by decide

/-- XXH32 of "a" at seed 0 is 0x550D7456 (published test vector). -/
theorem xxh32_vector_a : xxh32 0 [0x61] = 0x550D7456 := by decide

/-- XXH32 of "abc" at seed 0 is 0x32D153FF (published test vector). -/
theorem xxh32_vector_abc : xxh32 0 [0x61, 0x62, 0x63] = 0x32D153FF := by decide

/-- XXH32 of the 32 bytes 0,1,...,31 at seed 0 (exercises the 16-byte stripe
loop of the algorithm). -/
theorem xxh32_vector_stripes :
    xxh32 0 (List.range 32) = 0x830741C1 := by decide

/-! ### Claims -/

/-- Claim C1: `FrameInfo::read` is claimed to take the block-size code from
bits 6-4 of the block-descriptor byte (`(byte & 0b01110000) >> 4`), map codes
4..7 to the four sizes, and fail with `UnimplementedBlocksize` exactly for
codes 0..3. Refuted at a concrete header: its block-descriptor byte `0x40`
has 4 in bits 6-4, so the claim demands a successful `Max64KB` decode, yet
`read` returns `UnimplementedBlocksize 0` — Rust's `>>` binds tighter than
`&`, so the source masks with `0b0111` and extracts bits 2-0 instead. -/
theorem c1_blocksize_extraction_bug :
    FrameInfo.read [0x04, 0x22, 0x4D, 0x18, 0xC0, 0x40, 0x00] =
      .err (Error.UnimplementedBlocksize 0) := by decide

/-- Claim C2: for a buffer whose first 4 bytes are a skippable-range magic
(here 0x184D2A50) followed by a 4-byte length, `FrameInfo::read` is claimed to
return `SkippableFrame(L)` (here L = 1). Refuted: the source compares the
magic against `MAGIC_NUMBER` first and returns `WrongMagicNumber`, so its
skippable branch is unreachable. -/
theorem c2_skippable_read_bug :
    FrameInfo.read [0x50, 0x2A, 0x4D, 0x18, 0x01, 0x00, 0x00, 0x00] =
      .err Error.WrongMagicNumber := by decide

/-- Claim C3: `BlockInfo::read` is claimed to discriminate on the top bit of
the little-endian 32-bit record, with the size the low 31 bits. Refuted at the
record 0x40000000 (top bit clear, so the claim demands
`Compressed 0x40000000`): the source tests `size & 0xF0000000` and clears the
top four bits, producing `Uncompressed 0`. -/
theorem c3_blockinfo_topbit_bug :
    BlockInfo.read [0x00, 0x00, 0x00, 0x40] = .ok (BlockInfo.Uncompressed 0) := by decide

/-- Claim C4: for a buffer of length ≥ 7 starting with the standard magic,
`FrameInfo::required_size` is claimed to return 7 + 8·(content-size bit) +
4·(dict-id bit) of the flag byte at offset 4. Refuted at a 9-byte buffer whose
flag byte (offset 4) is 0x09, i.e. both bits set, so the claim demands 19: the
source consumed the magic from the slice before indexing, so its `input[4]`
reads the byte at offset 8 (here 0) and it returns 7. -/
theorem c4_required_size_flag_offset_bug :
    FrameInfo.required_size [0x04, 0x22, 0x4D, 0x18, 0x09, 0x00, 0x00, 0x00, 0x00] =
      .ok 7 := by decide

/-- Claim C5: `FrameInfo::read` is claimed to return `IoError` on every
truncation, including within the 8-byte content-size field. Refuted at a
6-byte buffer (valid magic, flag byte 0xC8 with the content-size bit set,
block-descriptor 0x04 passing the block-size check) that ends before the
content-size field: the source calls `.unwrap()` on that read, so it panics
instead of returning `IoError`. -/
theorem c5_content_size_truncation_panics :
    FrameInfo.read [0x04, 0x22, 0x4D, 0x18, 0xC8, 0x04] = .panicked := by decide

/-- Claim C6: the computed header checksum is claimed to be the
second-least-significant byte of the seed-0 XXH32 hash over exactly the bytes
consumed before the checksum byte, with `HeaderChecksumError` iff it differs
from the declared byte. Refuted: for the 6-byte prefix below that hash byte is
0x5F, so the claim demands that the header ending in declared byte 0x5F
decode successfully, yet `read` rejects it with `HeaderChecksumError` — the
source hashes `original_input[..len - input.len()]` after consuming the
checksum byte, a range that includes the checksum byte itself. -/
theorem c6_checksum_range_bug :
    (xxh32 0 [0x04, 0x22, 0x4D, 0x18, 0xC0, 0x04] >>> 8) % 256 = 0x5F ∧
    FrameInfo.read [0x04, 0x22, 0x4D, 0x18, 0xC0, 0x04, 0x5F] =
      .err Error.HeaderChecksumError := by decide

/-- Claim C7: for a buffer of length ≥ 7 whose first 4 bytes are a
skippable-range magic, `FrameInfo::required_size` is claimed to return 8.
Refuted: the source compares the magic against `MAGIC_NUMBER` before testing
the skippable range, so it returns `WrongMagicNumber` and its `Ok(8)` branch
is unreachable. -/
theorem c7_required_size_skippable_bug :
    FrameInfo.required_size [0x50, 0x2A, 0x4D, 0x18, 0x00, 0x00, 0x00, 0x00] =
      .err Error.WrongMagicNumber := by decide

/-- Claim C8: for every input of length < 7, whatever its content,
`FrameInfo::required_size` returns `Ok 7` (the function returns before
inspecting any byte). Confirmed. -/
theorem c8_required_size_short (input : List Nat) (h : input.length < 7) :
    FrameInfo.required_size input = .ok 7 := by
  simp only [FrameInfo.required_size]
  rw [if_pos h]

/-- Witness for C8 at the spec's concrete scenario: the 4-byte buffer holding
only the magic number. -/
theorem c8_required_size_short_witness :
    ([0x04, 0x22, 0x4D, 0x18] : List Nat).length < 7 ∧
    FrameInfo.required_size [0x04, 0x22, 0x4D, 0x18] = .ok 7 :=
  ⟨by decide, c8_required_size_short [0x04, 0x22, 0x4D, 0x18] (by decide)⟩

/-- Claim C9: decoding the frame-header encoding of any valid `FrameInfo` is
claimed to reproduce it. Refuted at the default `FrameInfo` (no optional
fields, `Max64KB`, `Independent`): its encoding carries the block-descriptor
byte 0x40 (code 4 in bits 6-4 as the format requires), which `read` rejects
with `UnimplementedBlocksize 0` because of the bit-extraction precedence bug,
so the round trip yields an error instead of the original value. -/
theorem c9_roundtrip_bug :
    FrameInfo.read (FrameInfo.write FrameInfo.default) =
      .err (Error.UnimplementedBlocksize 0) := by decide

/-- Claim C10: `FrameInfo::required_size` is claimed never to panic, in
particular not on 7- or 8-byte buffers starting with the standard magic.
Refuted at the 7-byte buffer of the magic followed by three zero bytes: after
the magic is consumed only 3 bytes remain, and the source's `input[4]` indexes
out of bounds, a panic. -/
theorem c10_required_size_panics :
    FrameInfo.required_size [0x04, 0x22, 0x4D, 0x18, 0x00, 0x00, 0x00] =
      .panicked := by decide

end Lz4Flex
